import Mathlib

/-!
Verification development for the SFU signaling server (`server.js`).

The server keeps a process-wide registry `rooms : Map roomId → Room`, where a
`Room` holds one engine router and a `Map peerId → Peer`; each `Peer` holds the
owning socket, a `Map` of transports, of producers and of consumers.  The
socket.io handlers (`join-room`, `connect-transport`, `produce`, `consume`,
`resume-consumer`, `get-producers`, `disconnect`) are embedded below as pure
functions from a server state and the request arguments to the new state, a
trace of observable actions (engine calls, emissions, the acknowledgment) and
the acknowledgment value.  Calls into the media engine are asynchronous and
fallible in the source; their outcomes are passed in as explicit
`Except`/`Bool` oracle arguments, so each Lean function covers every control
path of the corresponding handler.

JS `Map` is modelled by an insertion-ordered association list: `set` updates
in place or appends, `delete` removes the entry, iteration follows insertion
order — exactly the JS iteration contract the handlers rely on.
-/

namespace MediaServer

/-- Insertion-ordered association list, modelling a JavaScript `Map`. -/
abbrev AssocMap (α β : Type) : Type := List (α × β)

namespace AssocMap

/-- `Map.get(k)`: first entry with key `k`. -/
def get? {α β : Type} [DecidableEq α] : AssocMap α β → α → Option β
  | [], _ => none
  | (a, b) :: t, k => if a = k then some b else get? t k

/-- `Map.has(k)`. -/
def contains {α β : Type} [DecidableEq α] (m : AssocMap α β) (k : α) : Bool :=
  (get? m k).isSome

/-- `Map.set(k, v)`: update in place if present, else append (JS order). -/
def set {α β : Type} [DecidableEq α] : AssocMap α β → α → β → AssocMap α β
  | [], k, v => [(k, v)]
  | (a, b) :: t, k, v => if a = k then (k, v) :: t else (a, b) :: set t k v

/-- `Map.delete(k)`: remove the (first) entry with key `k`. -/
def erase {α β : Type} [DecidableEq α] : AssocMap α β → α → AssocMap α β
  | [], _ => []
  | (a, b) :: t, k => if a = k then t else (a, b) :: erase t k

/-- `Map.values()` in iteration order. -/
def values {α β : Type} (m : AssocMap α β) : List β :=
  m.map Prod.snd

/-- Keys in iteration order. -/
def keys {α β : Type} (m : AssocMap α β) : List α :=
  m.map Prod.fst

end AssocMap

/-- The router object of a room: only its advertised RTP capabilities are
observed by the handlers (`room.router.rtpCapabilities`). -/
structure RouterInfo where
  rtpCapabilities : String
deriving DecidableEq, Repr

/-- A WebRTC transport as returned by `router.createWebRtcTransport`; the
parameter blobs are opaque strings passed through to the client verbatim. -/
structure Transport where
  id : String
  iceParameters : String
  iceCandidates : String
  dtlsParameters : String
  sctpParameters : String
deriving DecidableEq, Repr

/-- A producer as returned by `transport.produce`. -/
structure Producer where
  id : String
  kind : String
deriving DecidableEq, Repr

/-- A consumer as returned by `transport.consume`. -/
structure Consumer where
  id : String
  producerId : String
  kind : String
  rtpParameters : String
deriving DecidableEq, Repr

/-- The per-peer session object built in the `join-room` handler: the owning
socket (modelled by its id), one `Map` holding both transports (the source
records no direction), the producers and the consumers. -/
structure Peer where
  id : String
  socketId : String
  transports : AssocMap String Transport
  producers : AssocMap String Producer
  consumers : AssocMap String Consumer
deriving DecidableEq, Repr

/-- A room: `{ router, peers }`. -/
structure Room where
  router : RouterInfo
  peers : AssocMap String Peer
deriving DecidableEq, Repr

/-- The process-wide registry `rooms : Map roomId → Room`. -/
structure ServerState where
  rooms : AssocMap String Room
deriving DecidableEq, Repr

/-- One `{peerId, producerId, kind}` record of the `get-producers` reply. -/
structure ProducerInfo where
  peerId : String
  producerId : String
  kind : String
deriving DecidableEq, Repr

/-- Acknowledgment values sent through a handler's callback. -/
inductive Reply where
  /-- `callback({error})`. -/
  | rerror (msg : String)
  /-- `join-room` success: both transport parameter sets and the router
  capabilities. -/
  | joinOk (sendTransport recvTransport : Transport) (routerRtpCapabilities : String)
  /-- `callback({success: true})`. -/
  | successOk
  /-- `produce` success: `{id}`. -/
  | produceOk (id : String)
  /-- `consume` success: `{id, producerId, kind, rtpParameters}`. -/
  | consumeOk (id : String) (producerId : String) (kind : String) (rtpParameters : String)
  /-- `get-producers` success: `{producers}`. -/
  | producersOk (producers : List ProducerInfo)
deriving DecidableEq, Repr

/-- Whether a reply is an `{error}` acknowledgment. -/
def Reply.isErr : Reply → Bool
  | .rerror _ => true
  | _ => false

/-- Observable actions a handler performs, in program order: successful engine
calls, socket emissions, registry mutations and the acknowledgment. -/
inductive Action where
  /-- `worker.createRouter` succeeded while creating the given room. -/
  | createRouter (roomId : String)
  /-- `router.createWebRtcTransport` succeeded. -/
  | createTransport (transportId : String)
  /-- `transport.close()` issued. -/
  | closeTransport (transportId : String)
  /-- `router.close()` issued for the given room. -/
  | closeRouter (roomId : String)
  /-- `transport.connect({dtlsParameters})` issued. -/
  | engineConnect (transportId : String)
  /-- `transport.produce` succeeded with the given producer id. -/
  | engineProduce (producerId : String)
  /-- `transport.consume({producerId, rtpCapabilities, paused})` issued with
  the given arguments. -/
  | engineConsume (producerId : String) (rtpCapabilities : String) (paused : Bool)
  /-- `consumer.resume()` issued. -/
  | engineResume (consumerId : String)
  /-- `socket.to(roomId).emit('peer-joined', {peerId})`. -/
  | emitPeerJoined (roomId peerId : String)
  /-- `socket.to(roomId).emit('new-producer', {peerId, producerId, kind})`. -/
  | emitNewProducer (roomId peerId producerId kind : String)
  /-- `socket.to(roomId).emit('peer-left', {peerId})`. -/
  | emitPeerLeft (roomId peerId : String)
  /-- `room.peers.delete(peerId)`. -/
  | removePeer (roomId peerId : String)
  /-- `rooms.delete(roomId)`. -/
  | removeRoom (roomId : String)
  /-- the acknowledgment callback invocation. -/
  | ack (r : Reply)
deriving DecidableEq, Repr

namespace AssocMap

theorem get?_cons {α β : Type} [DecidableEq α] (x : α × β) (t : AssocMap α β) (k : α) :
    get? (x :: t) k = if x.1 = k then some x.2 else get? t k := by
  obtain ⟨a, b⟩ := x
  rfl

theorem set_cons {α β : Type} [DecidableEq α] (x : α × β) (t : AssocMap α β) (k : α) (v : β) :
    set (x :: t) k v = if x.1 = k then (k, v) :: t else x :: set t k v := by
  obtain ⟨a, b⟩ := x
  rfl

theorem erase_cons {α β : Type} [DecidableEq α] (x : α × β) (t : AssocMap α β) (k : α) :
    erase (x :: t) k = if x.1 = k then t else x :: erase t k := by
  obtain ⟨a, b⟩ := x
  rfl

theorem get?_set_self {α β : Type} [DecidableEq α] (m : AssocMap α β) (k : α) (v : β) :
    get? (set m k v) k = some v := by
  induction m with
  | nil => simp [set, get?]
  | cons x t ih =>
    by_cases hak : x.1 = k
    · simp [set_cons, hak, get?_cons]
    · simp [set_cons, hak, get?_cons, ih]

theorem get?_set_ne {α β : Type} [DecidableEq α] (m : AssocMap α β) (k k' : α) (v : β)
    (h : k' ≠ k) : get? (set m k v) k' = get? m k' := by
  have hkk : ¬ k = k' := fun hh => h hh.symm
  induction m with
  | nil => simp [set, get?, hkk]
  | cons x t ih =>
    by_cases hak : x.1 = k
    · simp [set_cons, hak, get?_cons, hkk, hak ▸ hkk]
    · simp [set_cons, hak, get?_cons, ih]

theorem contains_set_of_contains {α β : Type} [DecidableEq α] (m : AssocMap α β)
    (k k' : α) (v : β) (h : contains m k' = true) :
    contains (set m k v) k' = true := by
  by_cases hk : k' = k
  · subst hk
    simp [contains, get?_set_self]
  · simpa [contains, get?_set_ne m k k' v hk] using h

theorem keys_set_of_contains {α β : Type} [DecidableEq α] (m : AssocMap α β)
    (k : α) (v : β) (h : contains m k = true) :
    keys (set m k v) = keys m := by
  induction m with
  | nil => simp [contains, get?] at h
  | cons x t ih =>
    by_cases hak : x.1 = k
    · simp [set_cons, hak, keys]
    · have h' : contains t k = true := by
        simpa [contains, get?_cons, hak] using h
      have ih' := ih h'
      simp only [keys, List.map_cons] at ih' ⊢
      simp [set_cons, hak, ih']

theorem get?_eq_none_of_not_mem {α β : Type} [DecidableEq α] (m : AssocMap α β) (k : α)
    (h : k ∉ keys m) : get? m k = none := by
  induction m with
  | nil => simp [get?]
  | cons x t ih =>
    simp only [keys, List.map_cons, List.mem_cons] at h
    push_neg at h
    rw [get?_cons, if_neg (fun hh : x.1 = k => h.1 hh.symm)]
    exact ih (by simpa [keys] using h.2)

theorem get?_erase_self_of_nodup {α β : Type} [DecidableEq α] (m : AssocMap α β) (k : α)
    (h : (keys m).Nodup) : get? (erase m k) k = none := by
  induction m with
  | nil => simp [erase, get?]
  | cons x t ih =>
    simp only [keys, List.map_cons, List.nodup_cons] at h
    by_cases hak : x.1 = k
    · rw [erase_cons, if_pos hak]
      exact get?_eq_none_of_not_mem t k (by simpa [keys, hak] using h.1)
    · rw [erase_cons, if_neg hak, get?_cons, if_neg hak]
      exact ih h.2

theorem contains_map_of_fst {α β : Type} [DecidableEq α] (m : AssocMap α β)
    (g : α × β → α × β) (hg : ∀ x, (g x).1 = x.1) (k : α) :
    contains (List.map g m) k = contains m k := by
  induction m with
  | nil => simp
  | cons x t ih =>
    simp only [List.map_cons, contains, get?_cons, hg x] at ih ⊢
    by_cases hk : x.1 = k
    · simp [hk]
    · simp [hk, ih]

end AssocMap

/-- `getPeerBySocket(socket)`: scan rooms in insertion order, in each room scan
peers in insertion order, return the first peer whose socket matches.  The JS
function returns the peer object; since mutating that object means mutating it
inside the room that physically holds it, the embedding also returns the id of
that room. -/
def getPeerBySocket (st : ServerState) (sock : String) : Option (String × Peer) :=
  st.rooms.findSome? (fun p =>
    ((AssocMap.values p.2.peers).find? (fun q => q.socketId = sock)).map (fun q => (p.1, q)))

/-- `getRoomByPeer(peer)`: the id of the first room whose peer map has an
entry under `peer.id` (lookup is by id, not by object identity). -/
def getRoomByPeer (st : ServerState) (peer : Peer) : Option String :=
  (st.rooms.find? (fun p => AssocMap.contains p.2.peers peer.id)).map Prod.fst

/-- `getPeerByProducerId(producerId)`: the first peer (rooms in insertion
order, then peers) whose producer map has the given id. -/
def getPeerByProducerId (st : ServerState) (producerId : String) : Option Peer :=
  st.rooms.findSome? (fun p =>
    (AssocMap.values p.2.peers).find? (fun q => AssocMap.contains q.producers producerId))

/-- Apply `f` to the peer stored under `peerId` in the room stored under
`roomId`: the state-passing rendering of a JS in-place mutation of a peer
object obtained from the registry. -/
def updatePeer (st : ServerState) (roomId peerId : String) (f : Peer → Peer) : ServerState :=
  { rooms := st.rooms.map (fun p =>
      if p.1 = roomId then
        (p.1, { p.2 with peers := p.2.peers.map (fun q =>
          if q.1 = peerId then (q.1, f q.2) else q) })
      else p) }

/-- Outcomes of the engine calls the `join-room` handler awaits, in program
order: router creation (used only when the room does not yet exist), creation
of the send transport, `setMaxIncomingBitrate` on it, creation of the receive
transport, `setMaxIncomingBitrate` on it. -/
structure EngineJoin where
  routerRes : Except String RouterInfo
  sendRes : Except String Transport
  sendBitrateRes : Except String Unit
  recvRes : Except String Transport
  recvBitrateRes : Except String Unit
deriving Repr

/-- `getOrCreateRoom(roomId)`: return the existing room, or create a router
(which may fail — the thrown error is caught by the caller's catch block) and
insert a fresh room into the registry. -/
def getOrCreateRoom (st : ServerState) (roomId : String)
    (routerRes : Except String RouterInfo) :
    Except String (ServerState × Room × List Action) :=
  match AssocMap.get? st.rooms roomId with
  | some room => Except.ok (st, room, [])
  | none =>
    match routerRes with
    | Except.error e => Except.error e
    | Except.ok router =>
      let room : Room := { router := router, peers := [] }
      Except.ok ({ rooms := AssocMap.set st.rooms roomId room }, room,
                 [Action.createRouter roomId])

/-- The `join-room` handler.  Argument checks treat the empty string as the JS
falsy missing value.  Any engine failure is caught and acknowledged as
`{error}`; note the catch block closes nothing and the fresh room, once in the
registry, is never removed here. -/
def joinRoom (st : ServerState) (sock roomId peerId : String) (eng : EngineJoin) :
    ServerState × List Action × Reply :=
  if roomId = "" || peerId = "" then
    (st, [Action.ack (Reply.rerror "roomId and peerId are required")],
     Reply.rerror "roomId and peerId are required")
  else
    match getOrCreateRoom st roomId eng.routerRes with
    | Except.error e => (st, [Action.ack (Reply.rerror e)], Reply.rerror e)
    | Except.ok (st1, room, tr0) =>
      if AssocMap.contains room.peers peerId then
        (st1, tr0 ++ [Action.ack (Reply.rerror "Peer already exists in room")],
         Reply.rerror "Peer already exists in room")
      else
        match eng.sendRes with
        | Except.error e => (st1, tr0 ++ [Action.ack (Reply.rerror e)], Reply.rerror e)
        | Except.ok sendTransport =>
          let tr1 := tr0 ++ [Action.createTransport sendTransport.id]
          match eng.sendBitrateRes with
          | Except.error e => (st1, tr1 ++ [Action.ack (Reply.rerror e)], Reply.rerror e)
          | Except.ok _ =>
            match eng.recvRes with
            | Except.error e => (st1, tr1 ++ [Action.ack (Reply.rerror e)], Reply.rerror e)
            | Except.ok recvTransport =>
              let tr2 := tr1 ++ [Action.createTransport recvTransport.id]
              match eng.recvBitrateRes with
              | Except.error e => (st1, tr2 ++ [Action.ack (Reply.rerror e)], Reply.rerror e)
              | Except.ok _ =>
                let peer : Peer :=
                  { id := peerId, socketId := sock,
                    transports :=
                      AssocMap.set (AssocMap.set [] sendTransport.id sendTransport)
                        recvTransport.id recvTransport,
                    producers := [], consumers := [] }
                let room1 : Room := { room with peers := AssocMap.set room.peers peerId peer }
                let st2 : ServerState := { rooms := AssocMap.set st1.rooms roomId room1 }
                let reply := Reply.joinOk sendTransport recvTransport room.router.rtpCapabilities
                (st2,
                 tr2 ++ [Action.emitPeerJoined roomId peerId, Action.ack reply],
                 reply)

/-- The `connect-transport` handler: `dtlsParameters` is validated before the
peer lookup; `error.message || 'Failed to connect transport'` is modelled by
the empty-message fallback. -/
def connectTransport (st : ServerState) (sock transportId dtlsParameters : String)
    (connectRes : Except String Unit) : ServerState × List Action × Reply :=
  if dtlsParameters = "" then
    (st, [Action.ack (Reply.rerror "dtlsParameters is required")],
     Reply.rerror "dtlsParameters is required")
  else
    match getPeerBySocket st sock with
    | none => (st, [Action.ack (Reply.rerror "Peer not found")], Reply.rerror "Peer not found")
    | some (_, peer) =>
      match AssocMap.get? peer.transports transportId with
      | none =>
        (st, [Action.ack (Reply.rerror "Transport not found")],
         Reply.rerror "Transport not found")
      | some _ =>
        match connectRes with
        | Except.error e =>
          let msg := if e = "" then "Failed to connect transport" else e
          (st, [Action.engineConnect transportId, Action.ack (Reply.rerror msg)],
           Reply.rerror msg)
        | Except.ok _ =>
          (st, [Action.engineConnect transportId, Action.ack Reply.successOk],
           Reply.successOk)

/-- The `produce` handler: any transport of the peer is accepted (the map
holds both and no direction is recorded); on success the producer is stored,
`new-producer` is emitted to the room (when `getRoomByPeer` finds one), and
only then is the acknowledgment `{id}` sent. -/
def produce (st : ServerState) (sock transportId kind rtpParameters : String)
    (produceRes : Except String Producer) : ServerState × List Action × Reply :=
  match getPeerBySocket st sock with
  | none => (st, [Action.ack (Reply.rerror "Peer not found")], Reply.rerror "Peer not found")
  | some (rid, peer) =>
    match AssocMap.get? peer.transports transportId with
    | none =>
      (st, [Action.ack (Reply.rerror "Transport not found")],
       Reply.rerror "Transport not found")
    | some _ =>
      match produceRes with
      | Except.error e => (st, [Action.ack (Reply.rerror e)], Reply.rerror e)
      | Except.ok producer =>
        let st1 := updatePeer st rid peer.id (fun p =>
          { p with producers := AssocMap.set p.producers producer.id producer })
        let emits :=
          match getRoomByPeer st1 peer with
          | some roomId => [Action.emitNewProducer roomId peer.id producer.id producer.kind]
          | none => []
        let reply := Reply.produceOk producer.id
        (st1, Action.engineProduce producer.id :: emits ++ [Action.ack reply], reply)

/-- The `consume` handler, mirroring the source's check sequence: peer by
socket, transport (either of the peer's two), producer's peer by producer id
(no ownership check against the requester), the producer itself, the room of
the requesting peer, the room object, `router.canConsume`, then the engine
consume call with `paused: false`. -/
def consume (st : ServerState) (sock transportId producerId rtpCapabilities : String)
    (canConsume : Bool) (consumeRes : Except String Consumer) :
    ServerState × List Action × Reply :=
  match getPeerBySocket st sock with
  | none => (st, [Action.ack (Reply.rerror "Peer not found")], Reply.rerror "Peer not found")
  | some (rid, peer) =>
    match AssocMap.get? peer.transports transportId with
    | none =>
      (st, [Action.ack (Reply.rerror "Transport not found")],
       Reply.rerror "Transport not found")
    | some _ =>
      match getPeerByProducerId st producerId with
      | none =>
        (st, [Action.ack (Reply.rerror "Producer peer not found")],
         Reply.rerror "Producer peer not found")
      | some producerPeer =>
        match AssocMap.get? producerPeer.producers producerId with
        | none =>
          (st, [Action.ack (Reply.rerror "Producer not found")],
           Reply.rerror "Producer not found")
        | some _ =>
          match getRoomByPeer st peer with
          | none =>
            (st, [Action.ack (Reply.rerror "Room not found")], Reply.rerror "Room not found")
          | some room =>
            match AssocMap.get? st.rooms room with
            | none =>
              (st, [Action.ack (Reply.rerror "Room object not found")],
               Reply.rerror "Room object not found")
            | some _ =>
              if !canConsume then
                (st, [Action.ack (Reply.rerror "Cannot consume")],
                 Reply.rerror "Cannot consume")
              else
                match consumeRes with
                | Except.error e =>
                  (st, [Action.engineConsume producerId rtpCapabilities false,
                        Action.ack (Reply.rerror e)], Reply.rerror e)
                | Except.ok consumer =>
                  let st1 := updatePeer st rid peer.id (fun p =>
                    { p with consumers := AssocMap.set p.consumers consumer.id consumer })
                  let reply := Reply.consumeOk consumer.id consumer.producerId
                    consumer.kind consumer.rtpParameters
                  (st1, [Action.engineConsume producerId rtpCapabilities false,
                         Action.ack reply], reply)

/-- The `resume-consumer` handler: no state mutation. -/
def resumeConsumer (st : ServerState) (sock consumerId : String)
    (resumeRes : Except String Unit) : ServerState × List Action × Reply :=
  match getPeerBySocket st sock with
  | none => (st, [Action.ack (Reply.rerror "Peer not found")], Reply.rerror "Peer not found")
  | some (_, peer) =>
    match AssocMap.get? peer.consumers consumerId with
    | none =>
      (st, [Action.ack (Reply.rerror "Consumer not found")],
       Reply.rerror "Consumer not found")
    | some _ =>
      match resumeRes with
      | Except.error e =>
        (st, [Action.engineResume consumerId, Action.ack (Reply.rerror e)], Reply.rerror e)
      | Except.ok _ =>
        (st, [Action.engineResume consumerId, Action.ack Reply.successOk], Reply.successOk)

/-- The `get-producers` handler's accumulation loop: for each room peer other
than the requester, append one `{peerId, producerId, kind}` per producer. -/
def collectProducers (peers : AssocMap String Peer) (selfId : String) : List ProducerInfo :=
  peers.foldl (fun acc p =>
    if p.1 ≠ selfId then
      acc ++ p.2.producers.map (fun q =>
        { peerId := p.1, producerId := q.1, kind := q.2.kind })
    else acc) []

/-- The `get-producers` handler: no state mutation. -/
def getProducers (st : ServerState) (sock : String) : ServerState × List Action × Reply :=
  match getPeerBySocket st sock with
  | none => (st, [Action.ack (Reply.rerror "Peer not found")], Reply.rerror "Peer not found")
  | some (_, peer) =>
    match getRoomByPeer st peer with
    | none => (st, [Action.ack (Reply.rerror "Room not found")], Reply.rerror "Room not found")
    | some room =>
      match AssocMap.get? st.rooms room with
      | none =>
        (st, [Action.ack (Reply.rerror "Room object not found")],
         Reply.rerror "Room object not found")
      | some roomObj =>
        let reply := Reply.producersOk (collectProducers roomObj.peers peer.id)
        (st, [Action.ack reply], reply)

/-- `handlePeerDisconnect(socket)`: close the transports of the peer found for
the socket, delete `peer.id` from the room named by `getRoomByPeer`, emit
`peer-left`, and then — if that room is now empty — close its router and
delete the room.  Producers and consumers are not closed here (their
`transportclose` engine events do that asynchronously). -/
def handlePeerDisconnect (st : ServerState) (sock : String) : ServerState × List Action :=
  match getPeerBySocket st sock with
  | none => (st, [])
  | some (_, peer) =>
    match getRoomByPeer st peer with
    | none => (st, [])
    | some roomId =>
      match AssocMap.get? st.rooms roomId with
      | none => (st, [])
      | some room =>
        let closeActs := peer.transports.map (fun p => Action.closeTransport p.1)
        let room1 : Room := { room with peers := AssocMap.erase room.peers peer.id }
        let st1 : ServerState := { rooms := AssocMap.set st.rooms roomId room1 }
        let acts1 := closeActs ++
          [Action.removePeer roomId peer.id, Action.emitPeerLeft roomId peer.id]
        if room1.peers.length = 0 then
          ({ rooms := AssocMap.erase st1.rooms roomId },
           acts1 ++ [Action.closeRouter roomId, Action.removeRoom roomId])
        else
          (st1, acts1)

/-- The list `get-producers` is specified to return, written from the spec's
words: a flat list of `{peerId, producerId, kind}` across all peers of the
room other than the requester. -/
def specListProducers (peers : AssocMap String Peer) (selfId : String) : List ProducerInfo :=
  List.flatten ((peers.filter (fun p => decide (p.1 ≠ selfId))).map (fun p =>
    p.2.producers.map (fun q => { peerId := p.1, producerId := q.1, kind := q.2.kind })))

theorem collectProducers_go (selfId : String) (l : AssocMap String Peer)
    (acc : List ProducerInfo) :
    l.foldl (fun acc p =>
      if p.1 ≠ selfId then
        acc ++ p.2.producers.map (fun q =>
          { peerId := p.1, producerId := q.1, kind := q.2.kind })
      else acc) acc = acc ++ specListProducers l selfId := by
  induction l generalizing acc with
  | nil => simp [specListProducers]
  | cons x t ih =>
    rw [List.foldl_cons]
    by_cases hx : x.1 = selfId
    · rw [if_neg (fun hc => hc hx), ih]
      congr 1
      simp [specListProducers, hx]
    · rw [if_pos hx, ih, List.append_assoc]
      congr 1
      simp [specListProducers, hx]

/-- The handler's accumulation loop computes exactly the spec's flat list. -/
theorem collectProducers_eq (peers : AssocMap String Peer) (selfId : String) :
    collectProducers peers selfId = specListProducers peers selfId := by
  unfold collectProducers
  rw [collectProducers_go selfId peers []]
  rfl

/-- Characterization of `getOrCreateRoom`: either the room already existed and
the state is untouched, or a fresh room with no peers was inserted. -/
theorem getOrCreateRoom_state (st : ServerState) (roomId : String)
    (res : Except String RouterInfo) (st1 : ServerState) (room : Room) (tr : List Action)
    (h : getOrCreateRoom st roomId res = Except.ok (st1, room, tr)) :
    (st1 = st ∧ AssocMap.get? st.rooms roomId = some room ∧ tr = []) ∨
    (st1 = { rooms := AssocMap.set st.rooms roomId room } ∧ room.peers = [] ∧
      AssocMap.get? st.rooms roomId = none ∧ tr = [Action.createRouter roomId]) := by
  unfold getOrCreateRoom at h
  cases hr : AssocMap.get? st.rooms roomId with
  | some r =>
    rw [hr] at h
    simp only [Except.ok.injEq, Prod.mk.injEq] at h
    obtain ⟨h1, h2, h3⟩ := h
    exact Or.inl ⟨h1.symm, congrArg some h2, h3.symm⟩
  | none =>
    rw [hr] at h
    cases res with
    | error e => cases h
    | ok router =>
      simp only [Except.ok.injEq, Prod.mk.injEq] at h
      obtain ⟨h1, h2, h3⟩ := h
      refine Or.inr ⟨?_, ?_, rfl, h3.symm⟩
      · rw [← h1, ← h2]
      · rw [← h2]

theorem find?_fst_map_keyfix {α γ : Type} (l : List (α × γ)) (g : α × γ → α × γ)
    (pred : α × γ → Bool) (hfst : ∀ x, (g x).1 = x.1) (hpred : ∀ x, pred (g x) = pred x) :
    Option.map Prod.fst (List.find? pred (List.map g l)) =
      Option.map Prod.fst (List.find? pred l) := by
  induction l with
  | nil => rfl
  | cons x t ih =>
    simp only [List.map_cons]
    cases hc : pred x with
    | true =>
      rw [List.find?_cons_of_pos _ (by rw [hpred, hc]), List.find?_cons_of_pos _ hc]
      simp [hfst]
    | false =>
      rw [List.find?_cons_of_neg _ (by rw [hpred, hc]; simp),
        List.find?_cons_of_neg _ (by rw [hc]; simp)]
      exact ih

/-- `updatePeer` changes neither the set of room ids nor which peer ids each
room holds, so `getRoomByPeer` is unaffected by it. -/
theorem getRoomByPeer_updatePeer (st : ServerState) (rid pid : String) (f : Peer → Peer)
    (q : Peer) : getRoomByPeer (updatePeer st rid pid f) q = getRoomByPeer st q := by
  unfold getRoomByPeer updatePeer
  exact find?_fst_map_keyfix st.rooms _ _
    (fun x => by by_cases hx : x.1 = rid <;> simp [hx])
    (fun x => by
      by_cases hx : x.1 = rid
      · simp only [if_pos hx]
        exact AssocMap.contains_map_of_fst x.2.peers _
          (fun y => by by_cases hy : y.1 = pid <;> simp [hy]) q.id
      · simp [hx])

/-- Look a peer up at its registry position (used to observe result states). -/
def lookupPeer (st : ServerState) (roomId peerId : String) : Option Peer :=
  match AssocMap.get? st.rooms roomId with
  | some room => AssocMap.get? room.peers peerId
  | none => none

/-- Whether an action is the acknowledgment callback. -/
def isAck : Action → Bool
  | Action.ack _ => true
  | _ => false

/-- Whether an action is a `new-producer` emission. -/
def isNewProducerEmit : Action → Bool
  | Action.emitNewProducer _ _ _ _ => true
  | _ => false

/-- Whether an action is a `peer-left` emission. -/
def isPeerLeftEmit : Action → Bool
  | Action.emitPeerLeft _ _ => true
  | _ => false

/-- Whether an action is a router close. -/
def isCloseRouter : Action → Bool
  | Action.closeRouter _ => true
  | _ => false

/-- Concrete fixture data used by witnesses and counterexamples. -/
def fxRouter1 : RouterInfo := { rtpCapabilities := "caps1" }

def fxSendA : Transport := { id := "ts-a", iceParameters := "iceP-a1", iceCandidates := "iceC-a1", dtlsParameters := "dtls-a1", sctpParameters := "sctp-a1" }

def fxRecvA : Transport := { id := "tr-a", iceParameters := "iceP-a2", iceCandidates := "iceC-a2", dtlsParameters := "dtls-a2", sctpParameters := "sctp-a2" }

def fxSendB : Transport := { id := "ts-b", iceParameters := "iceP-b1", iceCandidates := "iceC-b1", dtlsParameters := "dtls-b1", sctpParameters := "sctp-b1" }

def fxRecvB : Transport := { id := "tr-b", iceParameters := "iceP-b2", iceCandidates := "iceC-b2", dtlsParameters := "dtls-b2", sctpParameters := "sctp-b2" }

def fxProdA : Producer := { id := "p-a", kind := "video" }

/-- Engine oracle where every call of `join-room` succeeds (peer A's ids). -/
def fxEngA : EngineJoin := { routerRes := Except.ok fxRouter1, sendRes := Except.ok fxSendA, sendBitrateRes := Except.ok (), recvRes := Except.ok fxRecvA, recvBitrateRes := Except.ok () }

/-- Engine oracle where every call of `join-room` succeeds (peer B's ids). -/
def fxEngB : EngineJoin := { routerRes := Except.ok { rtpCapabilities := "caps2" }, sendRes := Except.ok fxSendB, sendBitrateRes := Except.ok (), recvRes := Except.ok fxRecvB, recvBitrateRes := Except.ok () }

/-- Engine oracle where the receive-transport creation fails after the send
transport was already created. -/
def fxEngJoinFail : EngineJoin := { routerRes := Except.ok { rtpCapabilities := "caps2" }, sendRes := Except.ok fxSendA, sendBitrateRes := Except.ok (), recvRes := Except.error "boom", recvBitrateRes := Except.ok () }

/-- State after peer `a` (socket `sa`) joined room `r1`. -/
def fxStA : ServerState := (joinRoom { rooms := [] } "sa" "r1" "a" fxEngA).1

/-- State after peer `b` (socket `sb`) also joined room `r1`. -/
def fxStAB : ServerState := (joinRoom fxStA "sb" "r1" "b" fxEngB).1

/-- State after peer `a` produced `p-a` (video) on its send transport. -/
def fxSt0 : ServerState := (produce fxStAB "sa" "ts-a" "video" "rtp-a" (Except.ok fxProdA)).1

/-- Peer `a` as stored in `fxSt0`. -/
def fxPeerA : Peer := { id := "a", socketId := "sa", transports := [("ts-a", fxSendA), ("tr-a", fxRecvA)], producers := [("p-a", fxProdA)], consumers := [] }

/-- Peer `b` as stored in `fxSt0`. -/
def fxPeerB : Peer := { id := "b", socketId := "sb", transports := [("ts-b", fxSendB), ("tr-b", fxRecvB)], producers := [], consumers := [] }

/-- Room `r1` as stored in `fxSt0`. -/
def fxRoom1 : Room := { router := fxRouter1, peers := [("a", fxPeerA), ("b", fxPeerB)] }

/-- The consumer the engine returns when peer `a` consumes its own `p-a`. -/
def fxSelfConsumer : Consumer := { id := "c1", producerId := "p-a", kind := "video", rtpParameters := "rtp-c1" }

/-- The consumer the engine returns when peer `b` consumes `p-a`. -/
def fxConsB : Consumer := { id := "c2", producerId := "p-a", kind := "video", rtpParameters := "rtp-c2" }

/-- C1: the spec claims a `consume` whose `producerId` names one of the
requester's own producers is answered with a precondition error and creates
no consumer.  Counterexample: in `fxSt0` the producer `p-a` is owned by peer
`a` itself (same peer the socket `sa` resolves to), yet the handler answers
with a success reply and registers the consumer `c1` on peer `a`. -/
theorem c1_self_consume_counterexample :
    (getPeerBySocket fxSt0 "sa").map (fun p => p.2.id) = some "a" ∧
    (getPeerByProducerId fxSt0 "p-a").map Peer.id = some "a" ∧
    (consume fxSt0 "sa" "tr-a" "p-a" "caps-a" true (Except.ok fxSelfConsumer)).2.2 =
      Reply.consumeOk "c1" "p-a" "video" "rtp-c1" ∧
    (consume fxSt0 "sa" "tr-a" "p-a" "caps-a" true (Except.ok fxSelfConsumer)).2.2.isErr
      = false ∧
    (lookupPeer (consume fxSt0 "sa" "tr-a" "p-a" "caps-a" true
        (Except.ok fxSelfConsumer)).1 "r1" "a").map
      (fun p => AssocMap.get? p.consumers "c1") = some (some fxSelfConsumer) := by
  decide

/-- C1 (amended): the dispatcher performs no ownership check on `producerId`.
A consume whose producer is owned by the requesting peer itself is treated
like any other: whenever the transport and producer exist, the room is found
and `canConsume` holds, a successful engine consume is acknowledged with the
consumer's parameters and the consumer is registered on the requesting peer. -/
theorem c1_self_consume_allowed
    (st : ServerState) (sock transportId producerId rtpCapabilities : String)
    (rid : String) (peer : Peer) (t : Transport) (prod : Producer)
    (roomId : String) (roomObj : Room) (c : Consumer)
    (hpeer : getPeerBySocket st sock = some (rid, peer))
    (ht : AssocMap.get? peer.transports transportId = some t)
    (hself : getPeerByProducerId st producerId = some peer)
    (hprod : AssocMap.get? peer.producers producerId = some prod)
    (hroom : getRoomByPeer st peer = some roomId)
    (hobj : AssocMap.get? st.rooms roomId = some roomObj) :
    consume st sock transportId producerId rtpCapabilities true (Except.ok c) =
      (updatePeer st rid peer.id (fun p =>
          { p with consumers := AssocMap.set p.consumers c.id c }),
       [Action.engineConsume producerId rtpCapabilities false,
        Action.ack (Reply.consumeOk c.id c.producerId c.kind c.rtpParameters)],
       Reply.consumeOk c.id c.producerId c.kind c.rtpParameters) := by
  simp [consume, hpeer, ht, hself, hprod, hroom, hobj]

/-- C1 witness: the amended theorem applied at the concrete self-consume. -/
theorem c1_self_consume_allowed_witness :
    getPeerBySocket fxSt0 "sa" = some ("r1", fxPeerA) ∧
    AssocMap.get? fxPeerA.transports "tr-a" = some fxRecvA ∧
    getPeerByProducerId fxSt0 "p-a" = some fxPeerA ∧
    AssocMap.get? fxPeerA.producers "p-a" = some fxProdA ∧
    getRoomByPeer fxSt0 fxPeerA = some "r1" ∧
    AssocMap.get? fxSt0.rooms "r1" = some fxRoom1 ∧
    consume fxSt0 "sa" "tr-a" "p-a" "caps-a" true (Except.ok fxSelfConsumer) =
      (updatePeer fxSt0 "r1" fxPeerA.id (fun p =>
          { p with consumers := AssocMap.set p.consumers fxSelfConsumer.id fxSelfConsumer }),
       [Action.engineConsume "p-a" "caps-a" false,
        Action.ack (Reply.consumeOk fxSelfConsumer.id fxSelfConsumer.producerId
          fxSelfConsumer.kind fxSelfConsumer.rtpParameters)],
       Reply.consumeOk fxSelfConsumer.id fxSelfConsumer.producerId
         fxSelfConsumer.kind fxSelfConsumer.rtpParameters) :=
  ⟨by decide, by decide, by decide, by decide, by decide, by decide,
   c1_self_consume_allowed fxSt0 "sa" "tr-a" "p-a" "caps-a" "r1" fxPeerA fxRecvA
     fxProdA "r1" fxRoom1 fxSelfConsumer (by decide) (by decide) (by decide)
     (by decide) (by decide) (by decide)⟩

/-- C2: the spec claims every transport created by a failing `join-room` is
closed before the error acknowledgment.  Counterexample: with the receive
transport creation failing after the send transport `ts-a` was created, the
handler's trace contains the creation of `ts-a` and the error acknowledgment
but no `transport.close()` at all. -/
theorem c2_join_rollback_counterexample :
    (joinRoom { rooms := [] } "s1" "r" "x" fxEngJoinFail).2.1 =
      [Action.createRouter "r", Action.createTransport "ts-a",
       Action.ack (Reply.rerror "boom")] ∧
    (joinRoom { rooms := [] } "s1" "r" "x" fxEngJoinFail).2.2 = Reply.rerror "boom" ∧
    Action.closeTransport "ts-a" ∉
      (joinRoom { rooms := [] } "s1" "r" "x" fxEngJoinFail).2.1 := by
  decide

/-- C2 (amended): when `join-room` fails, the handler closes none of the
transports it created (its catch block only acknowledges the error), but no
half-formed peer is left behind: every room in the resulting registry is
either exactly as it was before the call or is the freshly created room with
no peers. -/
theorem c2_join_failure_no_rollback
    (st : ServerState) (sock roomId peerId : String) (eng : EngineJoin)
    (herr : (joinRoom st sock roomId peerId eng).2.2.isErr = true) :
    (∀ tid, Action.closeTransport tid ∉ (joinRoom st sock roomId peerId eng).2.1) ∧
    (∀ rid room', AssocMap.get? (joinRoom st sock roomId peerId eng).1.rooms rid =
        some room' →
      AssocMap.get? st.rooms rid = some room' ∨ room'.peers = []) := by
  by_cases h0 : (roomId = "" || peerId = "") = true
  · simp only [joinRoom, h0, if_true]
    exact ⟨fun tid => by simp, fun rid room' hr => Or.inl hr⟩
  · cases hg : getOrCreateRoom st roomId eng.routerRes with
    | error e =>
      simp only [joinRoom, h0, if_false, hg]
      exact ⟨fun tid => by simp, fun rid room' hr => Or.inl hr⟩
    | ok res =>
      obtain ⟨st1, room, tr0⟩ := res
      have hstate := getOrCreateRoom_state st roomId eng.routerRes st1 room tr0 hg
      have htr0 : ∀ tid, Action.closeTransport tid ∉ tr0 := by
        intro tid
        rcases hstate with ⟨_, _, h3⟩ | ⟨_, _, _, h3⟩ <;> subst h3 <;> simp
      have hstcond : ∀ rid room', AssocMap.get? st1.rooms rid = some room' →
          AssocMap.get? st.rooms rid = some room' ∨ room'.peers = [] := by
        intro rid room' hr
        rcases hstate with ⟨h1, _, _⟩ | ⟨h1, hpeers, _, _⟩
        · exact Or.inl (h1 ▸ hr)
        · subst h1
          by_cases hrid : rid = roomId
          · subst hrid
            rw [show ({ rooms := AssocMap.set st.rooms rid room } : ServerState).rooms =
                AssocMap.set st.rooms rid room from rfl,
              AssocMap.get?_set_self] at hr
            cases hr
            exact Or.inr hpeers
          · rw [show ({ rooms := AssocMap.set st.rooms roomId room } : ServerState).rooms =
                AssocMap.set st.rooms roomId room from rfl,
              AssocMap.get?_set_ne _ _ _ _ hrid] at hr
            exact Or.inl hr
      cases hcont : AssocMap.contains room.peers peerId with
      | true =>
        simp only [joinRoom, h0, if_false, hg, hcont, if_true]
        exact ⟨fun tid => by simp [List.mem_append, htr0 tid], hstcond⟩
      | false =>
        cases hs : eng.sendRes with
        | error e =>
          simp only [joinRoom, h0, if_false, hg, hcont, hs]
          exact ⟨fun tid => by simp [List.mem_append, htr0 tid], hstcond⟩
        | ok sendT =>
          cases hsb : eng.sendBitrateRes with
          | error e =>
            simp only [joinRoom, h0, if_false, hg, hcont, hs, hsb]
            exact ⟨fun tid => by simp [List.mem_append, htr0 tid], hstcond⟩
          | ok u =>
            cases hrv : eng.recvRes with
            | error e =>
              simp only [joinRoom, h0, if_false, hg, hcont, hs, hsb, hrv]
              exact ⟨fun tid => by simp [List.mem_append, htr0 tid], hstcond⟩
            | ok recvT =>
              cases hrb : eng.recvBitrateRes with
              | error e =>
                simp only [joinRoom, h0, if_false, hg, hcont, hs, hsb, hrv, hrb]
                exact ⟨fun tid => by simp [List.mem_append, htr0 tid], hstcond⟩
              | ok u2 =>
                simp [joinRoom, h0, hg, hcont, hs, hsb, hrv, hrb, Reply.isErr] at herr

/-- C2 witness: the amended theorem applied at the failing concrete join. -/
theorem c2_join_failure_no_rollback_witness :
    (joinRoom { rooms := [] } "s1" "r" "x" fxEngJoinFail).2.2.isErr = true ∧
    Action.closeTransport "ts-a" ∉
      (joinRoom { rooms := [] } "s1" "r" "x" fxEngJoinFail).2.1 ∧
    (AssocMap.get? (joinRoom { rooms := [] } "s1" "r" "x" fxEngJoinFail).1.rooms "r" =
        some { router := { rtpCapabilities := "caps2" }, peers := [] } →
      AssocMap.get? ({ rooms := [] } : ServerState).rooms "r" =
        some { router := { rtpCapabilities := "caps2" }, peers := [] } ∨
      ({ router := { rtpCapabilities := "caps2" }, peers := [] } : Room).peers = []) :=
  ⟨by decide,
   (c2_join_failure_no_rollback { rooms := [] } "s1" "r" "x" fxEngJoinFail (by decide)).1 "ts-a",
   fun h => (c2_join_failure_no_rollback { rooms := [] } "s1" "r" "x" fxEngJoinFail
     (by decide)).2 "r" _ h⟩

/-- C3: the spec claims a `produce` naming the peer's receive transport, or a
`consume` naming the peer's send transport, is rejected.  Counterexample: in
`fxSt0`, `tr-a` is peer `a`'s receive transport (created second in its join)
and `ts-b` is peer `b`'s send transport (created first in its join), yet
`produce` on `tr-a` and `consume` on `ts-b` both succeed. -/
theorem c3_direction_counterexample :
    fxRecvA.id = "tr-a" ∧ fxSendB.id = "ts-b" ∧
    (produce fxSt0 "sa" "tr-a" "video" "rtp-x"
        (Except.ok { id := "p2", kind := "video" })).2.2 = Reply.produceOk "p2" ∧
    (consume fxSt0 "sb" "ts-b" "p-a" "caps-b" true (Except.ok fxConsB)).2.2 =
      Reply.consumeOk "c2" "p-a" "video" "rtp-c2" := by
  decide

/-- C3 (amended): the peer's two transports are kept in one map with no
recorded direction, and neither handler checks direction: `produce` succeeds
on any transport owned by the peer, and so does `consume` (under its
remaining existence and `canConsume` conditions). -/
theorem c3_no_direction_check
    (st : ServerState) (sock transportId kind rtpParameters : String)
    (rid : String) (peer : Peer) (t : Transport) (prod : Producer)
    (hpeer : getPeerBySocket st sock = some (rid, peer))
    (ht : AssocMap.get? peer.transports transportId = some t) :
    (produce st sock transportId kind rtpParameters (Except.ok prod)).2.2 =
      Reply.produceOk prod.id ∧
    (∀ producerId rtpCapabilities producerPeer prod2 roomId roomObj c,
      getPeerByProducerId st producerId = some producerPeer →
      AssocMap.get? producerPeer.producers producerId = some prod2 →
      getRoomByPeer st peer = some roomId →
      AssocMap.get? st.rooms roomId = some roomObj →
      (consume st sock transportId producerId rtpCapabilities true (Except.ok c)).2.2 =
        Reply.consumeOk c.id c.producerId c.kind c.rtpParameters) := by
  constructor
  · simp [produce, hpeer, ht]
  · intro producerId rtpCapabilities producerPeer prod2 roomId roomObj c hpp hprod hroom hobj
    simp [consume, hpeer, ht, hpp, hprod, hroom, hobj]

/-- C3 witness: the amended theorem applied on peer `b`'s send transport for
both operations. -/
theorem c3_no_direction_check_witness :
    getPeerBySocket fxSt0 "sb" = some ("r1", fxPeerB) ∧
    AssocMap.get? fxPeerB.transports "ts-b" = some fxSendB ∧
    (produce fxSt0 "sb" "ts-b" "video" "rtp-z"
        (Except.ok { id := "p-z", kind := "video" })).2.2 = Reply.produceOk "p-z" ∧
    (consume fxSt0 "sb" "ts-b" "p-a" "caps-b" true (Except.ok fxConsB)).2.2 =
      Reply.consumeOk "c2" "p-a" "video" "rtp-c2" :=
  ⟨by decide, by decide,
   (c3_no_direction_check fxSt0 "sb" "ts-b" "video" "rtp-z" "r1" fxPeerB fxSendB
     { id := "p-z", kind := "video" } (by decide) (by decide)).1,
   (c3_no_direction_check fxSt0 "sb" "ts-b" "video" "rtp-z" "r1" fxPeerB fxSendB
     { id := "p-z", kind := "video" } (by decide) (by decide)).2 "p-a" "caps-b"
     fxPeerA fxProdA "r1" fxRoom1 fxConsB (by decide) (by decide) (by decide) (by decide)⟩

/-- C4: the spec claims the `new-producer` emission occurs strictly after the
`produce` acknowledgment.  Counterexample: in the concrete successful produce
the emission is at trace index 1 and the acknowledgment at index 2, so the
emission comes strictly before the ack. -/
theorem c4_order_counterexample :
    (produce fxStAB "sa" "ts-a" "video" "rtp-a" (Except.ok fxProdA)).2.1 =
      [Action.engineProduce "p-a", Action.emitNewProducer "r1" "a" "p-a" "video",
       Action.ack (Reply.produceOk "p-a")] ∧
    List.findIdx? isNewProducerEmit
      (produce fxStAB "sa" "ts-a" "video" "rtp-a" (Except.ok fxProdA)).2.1 = some 1 ∧
    List.findIdx? isAck
      (produce fxStAB "sa" "ts-a" "video" "rtp-a" (Except.ok fxProdA)).2.1 = some 2 := by
  decide

/-- C4 (amended): a successful `produce` whose peer's room is found performs,
in order, the engine produce, the `new-producer` emission to the room, and
only then the acknowledgment - the emission comes strictly before the ack. -/
theorem c4_new_producer_before_ack
    (st : ServerState) (sock transportId kind rtpParameters : String)
    (rid roomId : String) (peer : Peer) (t : Transport) (prod : Producer)
    (hpeer : getPeerBySocket st sock = some (rid, peer))
    (ht : AssocMap.get? peer.transports transportId = some t)
    (hroom : getRoomByPeer st peer = some roomId) :
    (produce st sock transportId kind rtpParameters (Except.ok prod)).2.1 =
      [Action.engineProduce prod.id,
       Action.emitNewProducer roomId peer.id prod.id prod.kind,
       Action.ack (Reply.produceOk prod.id)] := by
  simp [produce, hpeer, ht, getRoomByPeer_updatePeer, hroom]

/-- Peer `a` as stored in `fxStAB` (before it produced anything). -/
def fxPeerA0 : Peer := { id := "a", socketId := "sa", transports := [("ts-a", fxSendA), ("tr-a", fxRecvA)], producers := [], consumers := [] }

/-- C4 witness: the amended theorem applied at a concrete produce. -/
theorem c4_new_producer_before_ack_witness :
    getPeerBySocket fxStAB "sa" = some ("r1", fxPeerA0) ∧
    AssocMap.get? fxPeerA0.transports "ts-a" = some fxSendA ∧
    getRoomByPeer fxStAB fxPeerA0 = some "r1" ∧
    (produce fxStAB "sa" "ts-a" "audio" "rtp-w"
        (Except.ok { id := "p-w", kind := "audio" })).2.1 =
      [Action.engineProduce "p-w", Action.emitNewProducer "r1" "a" "p-w" "audio",
       Action.ack (Reply.produceOk "p-w")] :=
  ⟨by decide, by decide, by decide,
   c4_new_producer_before_ack fxStAB "sa" "ts-a" "audio" "rtp-w" "r1" "r1" fxPeerA0
     fxSendA { id := "p-w", kind := "audio" } (by decide) (by decide) (by decide)⟩

/-- State after peer `z` (socket `sz`) joined room `r9` alone. -/
def fxStS1 : ServerState := (joinRoom { rooms := [] } "sz" "r9" "z" fxEngA).1

/-- State after `z` also produced `p-a`. -/
def fxStS2 : ServerState := (produce fxStS1 "sz" "ts-a" "video" "rtp-z" (Except.ok fxProdA)).1

/-- State where `z` moreover holds a consumer (a self-consume of `p-a`). -/
def fxStSolo : ServerState := (consume fxStS2 "sz" "tr-a" "p-a" "caps-z" true (Except.ok fxSelfConsumer)).1

/-- C5: the spec claims teardown closes all consumers, then all producers,
then the transports, removes the peer, closes the router on an empty room and
only after all of that emits `peer-left`.  Counterexample: peer `z` holds one
producer and one consumer, yet the disconnect trace closes only the two
transports (no producer/consumer close) and emits `peer-left` (index 3)
strictly before the router close (index 4) and the room removal. -/
theorem c5_teardown_counterexample :
    (lookupPeer fxStSolo "r9" "z").map
      (fun p => (p.producers.length, p.consumers.length)) = some (1, 1) ∧
    (handlePeerDisconnect fxStSolo "sz").2 =
      [Action.closeTransport "ts-a", Action.closeTransport "tr-a",
       Action.removePeer "r9" "z", Action.emitPeerLeft "r9" "z",
       Action.closeRouter "r9", Action.removeRoom "r9"] ∧
    List.findIdx? isPeerLeftEmit (handlePeerDisconnect fxStSolo "sz").2 = some 3 ∧
    List.findIdx? isCloseRouter (handlePeerDisconnect fxStSolo "sz").2 = some 4 := by
  decide

/-- C5 (amended): the disconnect handler closes the peer's transports (its
producers and consumers are not closed synchronously here - the engine's
`transportclose` events do that), removes the peer from the room named by
`getRoomByPeer`, emits `peer-left`, and only then, if the room became empty,
closes the router and removes the room. -/
theorem c5_teardown_order
    (st : ServerState) (sock : String) (rid0 roomId : String) (peer : Peer) (room : Room)
    (hpeer : getPeerBySocket st sock = some (rid0, peer))
    (hroom : getRoomByPeer st peer = some roomId)
    (hobj : AssocMap.get? st.rooms roomId = some room) :
    (handlePeerDisconnect st sock).2 =
      (peer.transports.map (fun p => Action.closeTransport p.1)) ++
      [Action.removePeer roomId peer.id, Action.emitPeerLeft roomId peer.id] ++
      (if (AssocMap.erase room.peers peer.id).length = 0 then
        [Action.closeRouter roomId, Action.removeRoom roomId]
      else []) := by
  simp only [handlePeerDisconnect, hpeer, hroom, hobj]
  by_cases hlen : (AssocMap.erase room.peers peer.id).length = 0
  · simp [hlen, List.append_assoc]
  · simp [hlen]

/-- Peer `z` as stored in `fxStSolo`. -/
def fxPeerZ : Peer := { id := "z", socketId := "sz", transports := [("ts-a", fxSendA), ("tr-a", fxRecvA)], producers := [("p-a", fxProdA)], consumers := [("c1", fxSelfConsumer)] }

/-- Room `r9` as stored in `fxStSolo`. -/
def fxRoom9 : Room := { router := fxRouter1, peers := [("z", fxPeerZ)] }

/-- C5 witness: the amended theorem applied at the concrete disconnect. -/
theorem c5_teardown_order_witness :
    getPeerBySocket fxStSolo "sz" = some ("r9", fxPeerZ) ∧
    getRoomByPeer fxStSolo fxPeerZ = some "r9" ∧
    AssocMap.get? fxStSolo.rooms "r9" = some fxRoom9 ∧
    (handlePeerDisconnect fxStSolo "sz").2 =
      (fxPeerZ.transports.map (fun p => Action.closeTransport p.1)) ++
      [Action.removePeer "r9" fxPeerZ.id, Action.emitPeerLeft "r9" fxPeerZ.id] ++
      (if (AssocMap.erase fxRoom9.peers fxPeerZ.id).length = 0 then
        [Action.closeRouter "r9", Action.removeRoom "r9"]
      else []) :=
  ⟨by decide, by decide, by decide,
   c5_teardown_order fxStSolo "sz" "r9" "r9" fxPeerZ fxRoom9
     (by decide) (by decide) (by decide)⟩

/-- C6: the spec claims a room exists iff it has a peer or a join for it is in
progress, so a failed join on a fresh room must not leave the room behind.
Counterexample: after the failing join completes (error acknowledged, no join
in progress any more), the registry still holds room `r` with no peers. -/
theorem c6_room_life_counterexample :
    (joinRoom { rooms := [] } "s1" "r" "x" fxEngJoinFail).2.2.isErr = true ∧
    (joinRoom { rooms := [] } "s1" "r" "x" fxEngJoinFail).1 =
      { rooms := [("r", { router := { rtpCapabilities := "caps2" }, peers := [] })] } := by
  decide

/-- C6 (amended): `join-room` never removes a room from the registry (so a
room created by a failed first join persists empty); rooms are removed only
by disconnect: when the last peer leaves, the router is closed and the room is
removed from the registry. -/
theorem c6_room_life_amended
    (st2 : ServerState) (sock2 : String) (rid0 roomId2 : String) (peer : Peer) (room2 : Room)
    (hnd : (AssocMap.keys st2.rooms).Nodup)
    (hpeer : getPeerBySocket st2 sock2 = some (rid0, peer))
    (hroom : getRoomByPeer st2 peer = some roomId2)
    (hobj : AssocMap.get? st2.rooms roomId2 = some room2)
    (hempty : (AssocMap.erase room2.peers peer.id).length = 0) :
    (∀ (st : ServerState) (sock roomId peerId : String) (eng : EngineJoin) (rid : String),
      AssocMap.contains st.rooms rid = true →
      AssocMap.contains (joinRoom st sock roomId peerId eng).1.rooms rid = true) ∧
    AssocMap.get? (handlePeerDisconnect st2 sock2).1.rooms roomId2 = none ∧
    Action.closeRouter roomId2 ∈ (handlePeerDisconnect st2 sock2).2 ∧
    Action.removeRoom roomId2 ∈ (handlePeerDisconnect st2 sock2).2 := by
  have hcont2 : AssocMap.contains st2.rooms roomId2 = true := by
    simp [AssocMap.contains, hobj]
  have hdis : handlePeerDisconnect st2 sock2 =
      ({ rooms := AssocMap.erase
          (AssocMap.set st2.rooms roomId2
            { router := room2.router, peers := AssocMap.erase room2.peers peer.id })
          roomId2 },
       (peer.transports.map (fun p => Action.closeTransport p.1)) ++
        [Action.removePeer roomId2 peer.id, Action.emitPeerLeft roomId2 peer.id] ++
        [Action.closeRouter roomId2, Action.removeRoom roomId2]) := by
    simp [handlePeerDisconnect, hpeer, hroom, hobj, hempty, List.append_assoc]
  refine ⟨?_, ?_, ?_, ?_⟩
  · intro st sock roomId peerId eng rid hc
    by_cases h0 : (roomId = "" || peerId = "") = true
    · simpa [joinRoom, h0] using hc
    · cases hg : getOrCreateRoom st roomId eng.routerRes with
      | error e => simpa [joinRoom, h0, hg] using hc
      | ok res =>
        obtain ⟨st1, room, tr0⟩ := res
        have hstate := getOrCreateRoom_state st roomId eng.routerRes st1 room tr0 hg
        have hc1 : AssocMap.contains st1.rooms rid = true := by
          rcases hstate with ⟨h1, _, _⟩ | ⟨h1, _, _, _⟩
          · rw [h1]; exact hc
          · subst h1
            exact AssocMap.contains_set_of_contains st.rooms roomId rid room hc
        cases hcont : AssocMap.contains room.peers peerId with
        | true => simpa [joinRoom, h0, hg, hcont] using hc1
        | false =>
          cases hs : eng.sendRes with
          | error e => simpa [joinRoom, h0, hg, hcont, hs] using hc1
          | ok sendT =>
            cases hsb : eng.sendBitrateRes with
            | error e => simpa [joinRoom, h0, hg, hcont, hs, hsb] using hc1
            | ok u =>
              cases hrv : eng.recvRes with
              | error e => simpa [joinRoom, h0, hg, hcont, hs, hsb, hrv] using hc1
              | ok recvT =>
                cases hrb : eng.recvBitrateRes with
                | error e => simpa [joinRoom, h0, hg, hcont, hs, hsb, hrv, hrb] using hc1
                | ok u2 =>
                  simp only [joinRoom, h0, hg, hcont, hs, hsb, hrv, hrb,
                    Bool.false_eq_true, if_false]
                  exact AssocMap.contains_set_of_contains st1.rooms roomId rid _ hc1
  · rw [hdis]
    exact AssocMap.get?_erase_self_of_nodup _ roomId2
      (by rw [AssocMap.keys_set_of_contains _ _ _ hcont2]; exact hnd)
  · rw [hdis]
    simp
  · rw [hdis]
    simp

/-- Peer `z` as stored in `fxStS1` (freshly joined, no producers yet). -/
def fxPeerZ0 : Peer := { id := "z", socketId := "sz", transports := [("ts-a", fxSendA), ("tr-a", fxRecvA)], producers := [], consumers := [] }

/-- Room `r9` as stored in `fxStS1`. -/
def fxRoom90 : Room := { router := fxRouter1, peers := [("z", fxPeerZ0)] }

/-- C6 witness: the amended theorem applied at the one-peer room `r9`. -/
theorem c6_room_life_amended_witness :
    (AssocMap.keys fxStS1.rooms).Nodup ∧
    getPeerBySocket fxStS1 "sz" = some ("r9", fxPeerZ0) ∧
    getRoomByPeer fxStS1 fxPeerZ0 = some "r9" ∧
    AssocMap.get? fxStS1.rooms "r9" = some fxRoom90 ∧
    (AssocMap.erase fxRoom90.peers fxPeerZ0.id).length = 0 ∧
    AssocMap.contains fxStS1.rooms "r9" = true ∧
    AssocMap.contains (joinRoom fxStS1 "sw" "r9" "w" fxEngB).1.rooms "r9" = true ∧
    AssocMap.get? (handlePeerDisconnect fxStS1 "sz").1.rooms "r9" = none ∧
    Action.closeRouter "r9" ∈ (handlePeerDisconnect fxStS1 "sz").2 :=
  ⟨by decide, by decide, by decide, by decide, by decide, by decide,
   (c6_room_life_amended fxStS1 "sz" "r9" "r9" fxPeerZ0 fxRoom90 (by decide)
     (by decide) (by decide) (by decide) (by decide)).1 fxStS1 "sw" "r9" "w" fxEngB "r9"
     (by decide),
   (c6_room_life_amended fxStS1 "sz" "r9" "r9" fxPeerZ0 fxRoom90 (by decide)
     (by decide) (by decide) (by decide) (by decide)).2.1,
   (c6_room_life_amended fxStS1 "sz" "r9" "r9" fxPeerZ0 fxRoom90 (by decide)
     (by decide) (by decide) (by decide) (by decide)).2.2.1⟩

def fxSendC : Transport := { id := "ts-c", iceParameters := "iceP-c1", iceCandidates := "iceC-c1", dtlsParameters := "dtls-c1", sctpParameters := "sctp-c1" }

def fxRecvC : Transport := { id := "tr-c", iceParameters := "iceP-c2", iceCandidates := "iceC-c2", dtlsParameters := "dtls-c2", sctpParameters := "sctp-c2" }

/-- Engine oracle for a third successful join (fresh router, ids `ts-c`,
`tr-c`). -/
def fxEngC : EngineJoin := { routerRes := Except.ok { rtpCapabilities := "caps3" }, sendRes := Except.ok fxSendC, sendBitrateRes := Except.ok (), recvRes := Except.ok fxRecvC, recvBitrateRes := Except.ok () }

/-- Aliased-peerId scenario: peer id `a` joins room `r1` on socket `s1`. -/
def fxM1 : ServerState := (joinRoom { rooms := [] } "s1" "r1" "a" fxEngA).1

/-- Then peer `b` joins `r1` on socket `s2`. -/
def fxM2 : ServerState := (joinRoom fxM1 "s2" "r1" "b" fxEngB).1

/-- Then `b` produces `p-b` (video). -/
def fxM3 : ServerState := (produce fxM2 "s2" "ts-b" "video" "rtp-b" (Except.ok { id := "p-b", kind := "video" })).1

/-- Then a second, distinct peer with the same id `a` joins room `r2` on
socket `s3` (`join-room` only checks uniqueness within the target room). -/
def fxM4 : ServerState := (joinRoom fxM3 "s3" "r2" "a" fxEngC).1

/-- The socket-`s1` peer `a` of room `r1` as stored in `fxM4`. -/
def fxPeerA1 : Peer := { id := "a", socketId := "s1", transports := [("ts-a", fxSendA), ("tr-a", fxRecvA)], producers := [], consumers := [] }

/-- Peer `b` of room `r1` as stored in `fxM4` (owns producer `p-b`). -/
def fxPeerBM : Peer := { id := "b", socketId := "s2", transports := [("ts-b", fxSendB), ("tr-b", fxRecvB)], producers := [("p-b", { id := "p-b", kind := "video" })], consumers := [] }

/-- The socket-`s3` peer `a` of room `r2` as stored in `fxM4`. -/
def fxPeerA2 : Peer := { id := "a", socketId := "s3", transports := [("ts-c", fxSendC), ("tr-c", fxRecvC)], producers := [], consumers := [] }

/-- Room `r1` as stored in `fxM4`. -/
def fxRoomM1 : Room := { router := fxRouter1, peers := [("a", fxPeerA1), ("b", fxPeerBM)] }

/-- C7: the claim says `get-producers` for a joined peer P returns exactly the
producers over the peers of P's Room other than P.  Counterexample: the
socket-`s3` requester is the sole peer of its room `r2`, so the claim demands
the empty list, yet the reply lists room `r1`'s producer `p-b` - because
`getRoomByPeer` resolves the peer's id `a` to the first room in registry
order holding that id, which is `r1`, not the requester's room. -/
theorem c7_get_producers_counterexample :
    (getPeerBySocket fxM4 "s3").map (fun p => (p.1, p.2.id)) = some ("r2", "a") ∧
    (AssocMap.get? fxM4.rooms "r2").map (fun r => AssocMap.keys r.peers) = some ["a"] ∧
    (getProducers fxM4 "s3").2.2 =
      Reply.producersOk [{ peerId := "b", producerId := "p-b", kind := "video" }] ∧
    (getProducers fxM4 "s3").2.2 ≠ Reply.producersOk [] := by
  decide

/-- C7 (amended): `get-producers` acknowledges exactly the flat
`{peerId, producerId, kind}` list (the spec-side `specListProducers`) over the
peers, other than the requester's id, of the room `getRoomByPeer` finds: the
FIRST room in registry insertion order whose peer map contains the
requester's peerId - the requester's own Room only when no earlier room also
holds that id.  Nothing is mutated, and no entry of the list carries the
requester's own id. -/
theorem c7_get_producers_amended
    (st : ServerState) (sock : String) (rid : String) (peer : Peer)
    (roomId : String) (roomObj : Room)
    (hpeer : getPeerBySocket st sock = some (rid, peer))
    (hroom : getRoomByPeer st peer = some roomId)
    (hobj : AssocMap.get? st.rooms roomId = some roomObj) :
    getProducers st sock =
      (st, [Action.ack (Reply.producersOk (specListProducers roomObj.peers peer.id))],
       Reply.producersOk (specListProducers roomObj.peers peer.id)) ∧
    ∀ info ∈ specListProducers roomObj.peers peer.id, info.peerId ≠ peer.id := by
  constructor
  · simp [getProducers, hpeer, hroom, hobj, collectProducers_eq]
  · intro info hinfo
    unfold specListProducers at hinfo
    simp only [List.mem_flatten, List.mem_map, List.mem_filter] at hinfo
    obtain ⟨l, ⟨p, ⟨hpmem, hpne⟩, hleq⟩, hinl⟩ := hinfo
    subst hleq
    simp only [List.mem_map] at hinl
    obtain ⟨q, hq, hqeq⟩ := hinl
    subst hqeq
    simpa using hpne

/-- C7 witness: the amended theorem applied at the aliased-id state, where
the id lookup lands on `r1` while the requester sits in `r2`, so the reply is
`r1`'s flat list. -/
theorem c7_get_producers_amended_witness :
    getPeerBySocket fxM4 "s3" = some ("r2", fxPeerA2) ∧
    getRoomByPeer fxM4 fxPeerA2 = some "r1" ∧
    AssocMap.get? fxM4.rooms "r1" = some fxRoomM1 ∧
    specListProducers fxRoomM1.peers fxPeerA2.id =
      [{ peerId := "b", producerId := "p-b", kind := "video" }] ∧
    getProducers fxM4 "s3" =
      (fxM4,
       [Action.ack (Reply.producersOk (specListProducers fxRoomM1.peers fxPeerA2.id))],
       Reply.producersOk (specListProducers fxRoomM1.peers fxPeerA2.id)) :=
  ⟨by decide, by decide, by decide, by decide,
   (c7_get_producers_amended fxM4 "s3" "r2" fxPeerA2 "r1" fxRoomM1
     (by decide) (by decide) (by decide)).1⟩

/-- C8: every engine consume call issued by the `consume` handler passes
`paused: false` - consumers are created unpaused by the server. -/
theorem c8_consume_unpaused
    (st : ServerState) (sock transportId producerId rtpCapabilities : String)
    (canConsume : Bool) (consumeRes : Except String Consumer)
    (p rc : String) (b : Bool)
    (hmem : Action.engineConsume p rc b ∈
      (consume st sock transportId producerId rtpCapabilities canConsume consumeRes).2.1) :
    b = false := by
  cases h1 : getPeerBySocket st sock with
  | none =>
    rw [show (consume st sock transportId producerId rtpCapabilities canConsume
        consumeRes).2.1 = [Action.ack (Reply.rerror "Peer not found")] from by
      simp [consume, h1]] at hmem
    simp at hmem
  | some rp =>
    obtain ⟨rid, peer⟩ := rp
    cases h2 : AssocMap.get? peer.transports transportId with
    | none =>
      rw [show (consume st sock transportId producerId rtpCapabilities canConsume
          consumeRes).2.1 = [Action.ack (Reply.rerror "Transport not found")] from by
        simp [consume, h1, h2]] at hmem
      simp at hmem
    | some t =>
      cases h3 : getPeerByProducerId st producerId with
      | none =>
        rw [show (consume st sock transportId producerId rtpCapabilities canConsume
            consumeRes).2.1 = [Action.ack (Reply.rerror "Producer peer not found")] from by
          simp [consume, h1, h2, h3]] at hmem
        simp at hmem
      | some pp =>
        cases h4 : AssocMap.get? pp.producers producerId with
        | none =>
          rw [show (consume st sock transportId producerId rtpCapabilities canConsume
              consumeRes).2.1 = [Action.ack (Reply.rerror "Producer not found")] from by
            simp [consume, h1, h2, h3, h4]] at hmem
          simp at hmem
        | some prod =>
          cases h5 : getRoomByPeer st peer with
          | none =>
            rw [show (consume st sock transportId producerId rtpCapabilities canConsume
                consumeRes).2.1 = [Action.ack (Reply.rerror "Room not found")] from by
              simp [consume, h1, h2, h3, h4, h5]] at hmem
            simp at hmem
          | some roomId =>
            cases h6 : AssocMap.get? st.rooms roomId with
            | none =>
              rw [show (consume st sock transportId producerId rtpCapabilities canConsume
                  consumeRes).2.1 = [Action.ack (Reply.rerror "Room object not found")] from by
                simp [consume, h1, h2, h3, h4, h5, h6]] at hmem
              simp at hmem
            | some roomObj =>
              cases hcc : canConsume with
              | false =>
                rw [show (consume st sock transportId producerId rtpCapabilities canConsume
                    consumeRes).2.1 = [Action.ack (Reply.rerror "Cannot consume")] from by
                  simp [consume, h1, h2, h3, h4, h5, h6, hcc]] at hmem
                simp at hmem
              | true =>
                cases h7 : consumeRes with
                | error e =>
                  rw [show (consume st sock transportId producerId rtpCapabilities canConsume
                      consumeRes).2.1 = [Action.engineConsume producerId rtpCapabilities false,
                        Action.ack (Reply.rerror e)] from by
                    simp [consume, h1, h2, h3, h4, h5, h6, hcc, h7]] at hmem
                  simp at hmem
                  exact hmem.2.2
                | ok c =>
                  rw [show (consume st sock transportId producerId rtpCapabilities canConsume
                      consumeRes).2.1 = [Action.engineConsume producerId rtpCapabilities false,
                        Action.ack (Reply.consumeOk c.id c.producerId c.kind
                          c.rtpParameters)] from by
                    simp [consume, h1, h2, h3, h4, h5, h6, hcc, h7]] at hmem
                  simp at hmem
                  exact hmem.2.2

/-- C8 witness: the theorem applied at peer `b`'s concrete consume of `p-a`. -/
theorem c8_consume_unpaused_witness :
    Action.engineConsume "p-a" "caps-b" false ∈
      (consume fxSt0 "sb" "tr-b" "p-a" "caps-b" true (Except.ok fxConsB)).2.1 ∧
    (false : Bool) = false :=
  ⟨by decide,
   c8_consume_unpaused fxSt0 "sb" "tr-b" "p-a" "caps-b" true (Except.ok fxConsB)
     "p-a" "caps-b" false (by decide)⟩

/-- C9: the spec claims every non-join request from a socket owning no peer is
answered `{error: 'Peer not found'}`.  Counterexample: a `connect-transport`
with missing `dtlsParameters` from such a socket is answered
`'dtlsParameters is required'` instead, because that validation runs before
the peer lookup. -/
theorem c9_unknown_socket_counterexample :
    getPeerBySocket fxSt0 "nobody" = none ∧
    (connectTransport fxSt0 "nobody" "t1" "" (Except.ok ())).2.2 =
      Reply.rerror "dtlsParameters is required" ∧
    (connectTransport fxSt0 "nobody" "t1" "" (Except.ok ())).2.2 ≠
      Reply.rerror "Peer not found" := by
  decide

/-- C9 (amended): a request from a socket that owns no peer mutates nothing
and is answered `'Peer not found'` by `produce`, `consume`, `resume-consumer`,
`get-producers`, and by `connect-transport` when `dtlsParameters` is present;
a `connect-transport` with missing `dtlsParameters` is instead answered
`'dtlsParameters is required'` (still with no mutation), and a disconnect of
such a socket changes nothing. -/
theorem c9_unknown_socket
    (st : ServerState) (sock : String)
    (transportId dtlsParameters kind rtpParameters producerId rtpCapabilities
      consumerId : String)
    (cres : Except String Unit) (pres : Except String Producer)
    (conres : Except String Consumer) (rres : Except String Unit) (cc : Bool)
    (hnone : getPeerBySocket st sock = none) :
    (dtlsParameters ≠ "" →
      connectTransport st sock transportId dtlsParameters cres =
        (st, [Action.ack (Reply.rerror "Peer not found")],
         Reply.rerror "Peer not found")) ∧
    (dtlsParameters = "" →
      connectTransport st sock transportId dtlsParameters cres =
        (st, [Action.ack (Reply.rerror "dtlsParameters is required")],
         Reply.rerror "dtlsParameters is required")) ∧
    produce st sock transportId kind rtpParameters pres =
      (st, [Action.ack (Reply.rerror "Peer not found")], Reply.rerror "Peer not found") ∧
    consume st sock transportId producerId rtpCapabilities cc conres =
      (st, [Action.ack (Reply.rerror "Peer not found")], Reply.rerror "Peer not found") ∧
    resumeConsumer st sock consumerId rres =
      (st, [Action.ack (Reply.rerror "Peer not found")], Reply.rerror "Peer not found") ∧
    getProducers st sock =
      (st, [Action.ack (Reply.rerror "Peer not found")], Reply.rerror "Peer not found") ∧
    handlePeerDisconnect st sock = (st, []) := by
  refine ⟨fun hd => ?_, fun hd => ?_, ?_, ?_, ?_, ?_, ?_⟩
  · simp [connectTransport, hnone, hd]
  · simp [connectTransport, hd]
  · simp [produce, hnone]
  · simp [consume, hnone]
  · simp [resumeConsumer, hnone]
  · simp [getProducers, hnone]
  · simp [handlePeerDisconnect, hnone]

/-- C9 witness: the amended theorem applied at the unknown socket `nobody`. -/
theorem c9_unknown_socket_witness :
    getPeerBySocket fxSt0 "nobody" = none ∧
    ("dtls-x" : String) ≠ "" ∧
    connectTransport fxSt0 "nobody" "t1" "dtls-x" (Except.ok ()) =
      (fxSt0, [Action.ack (Reply.rerror "Peer not found")],
       Reply.rerror "Peer not found") ∧
    getProducers fxSt0 "nobody" =
      (fxSt0, [Action.ack (Reply.rerror "Peer not found")],
       Reply.rerror "Peer not found") ∧
    handlePeerDisconnect fxSt0 "nobody" = (fxSt0, []) :=
  ⟨by decide, by decide,
   (c9_unknown_socket fxSt0 "nobody" "t1" "dtls-x" "k" "r" "p" "c" "cid"
     (Except.ok ()) (Except.error "e") (Except.error "e") (Except.ok ()) true
     (by decide)).1 (by decide),
   (c9_unknown_socket fxSt0 "nobody" "t1" "dtls-x" "k" "r" "p" "c" "cid"
     (Except.ok ()) (Except.error "e") (Except.error "e") (Except.ok ()) true
     (by decide)).2.2.2.2.2.1,
   (c9_unknown_socket fxSt0 "nobody" "t1" "dtls-x" "k" "r" "p" "c" "cid"
     (Except.ok ()) (Except.error "e") (Except.error "e") (Except.ok ()) true
     (by decide)).2.2.2.2.2.2⟩

/-- State after socket `S` joined room `r1` as peer `a`. -/
def fxS1 : ServerState := (joinRoom { rooms := [] } "S" "r1" "a" fxEngA).1

/-- State after the same socket `S` additionally joined room `r2` as `b`. -/
def fxS2 : ServerState := (joinRoom fxS1 "S" "r2" "b" fxEngB).1

/-- C10: `join-room`'s acknowledgment never depends on the requesting socket
(so a socket already owning a peer is never rejected for that reason), and in
the concrete two-room scenario socket `S` owns peers `a` (room `r1`) and `b`
(room `r2`): every lookup resolves to `a`, the first in registry iteration
order - a `produce` naming `b`'s transport fails with `Transport not found`,
`resume-consumer` acts on `a`'s (empty) consumer map - and the disconnect
tears down only `a`, leaving `b` in place in `r2`. -/
theorem c10_multi_peer_socket :
    (∀ (st : ServerState) (sock sock2 roomId peerId : String) (eng : EngineJoin),
      (joinRoom st sock roomId peerId eng).2.2 =
        (joinRoom st sock2 roomId peerId eng).2.2) ∧
    (joinRoom { rooms := [] } "S" "r1" "a" fxEngA).2.2.isErr = false ∧
    (joinRoom fxS1 "S" "r2" "b" fxEngB).2.2.isErr = false ∧
    (getPeerBySocket fxS2 "S").map (fun p => (p.1, p.2.id)) = some ("r1", "a") ∧
    (produce fxS2 "S" "ts-b" "video" "rtp-q"
        (Except.ok { id := "p-q", kind := "video" })).2.2 =
      Reply.rerror "Transport not found" ∧
    (resumeConsumer fxS2 "S" "c-x" (Except.ok ())).2.2 =
      Reply.rerror "Consumer not found" ∧
    (handlePeerDisconnect fxS2 "S").1.rooms = AssocMap.erase fxS2.rooms "r1" ∧
    (lookupPeer (handlePeerDisconnect fxS2 "S").1 "r2" "b").map Peer.id = some "b" := by
  refine ⟨?_, by decide, by decide, by decide, by decide, by decide, by decide, by decide⟩
  intro st sock sock2 roomId peerId eng
  by_cases h0 : (roomId = "" || peerId = "") = true
  · simp [joinRoom, h0]
  · cases hg : getOrCreateRoom st roomId eng.routerRes with
    | error e => simp [joinRoom, h0, hg]
    | ok res =>
      obtain ⟨st1, room, tr0⟩ := res
      cases hcont : AssocMap.contains room.peers peerId with
      | true => simp [joinRoom, h0, hg, hcont]
      | false =>
        cases hs : eng.sendRes with
        | error e => simp [joinRoom, h0, hg, hcont, hs]
        | ok sendT =>
          cases hsb : eng.sendBitrateRes with
          | error e => simp [joinRoom, h0, hg, hcont, hs, hsb]
          | ok u =>
            cases hrv : eng.recvRes with
            | error e => simp [joinRoom, h0, hg, hcont, hs, hsb, hrv]
            | ok recvT =>
              cases hrb : eng.recvBitrateRes with
              | error e => simp [joinRoom, h0, hg, hcont, hs, hsb, hrv, hrb]
              | ok u2 => simp [joinRoom, h0, hg, hcont, hs, hsb, hrv, hrb]

end MediaServer
